import Mathlib

/-!
Verification of the provider-signup / patient-intake backend
============================================================

Shallow embedding of the Node.js backend (Express routes) that

* onboards a provider by calling two external GraphQL services in order
  (Healthie `createReferringPhysician`, then Authorizer `signup`), and
* records patient-intake submissions, resolving the provider id from a
  practice name, a bearer token, or a direct id.

The embedding follows the latest route variants in the repository:
`src/unnamed/part_000` for the provider-signup route and
`src/unnamed/part_001` for the patients routes.  Superseded variants
(`src/routes/provider.js`, `src/routes/patients.js`, `src/unnamed/part_002`)
share the relevant logic verbatim; differences are noted where they matter.

JavaScript strings are modelled as `List Char`; the handful of JS coercions
the code relies on (`String(x)`, `Number(x)`, truthiness, `||`, `??`) are
modelled explicitly below.  JS numbers are modelled as exact fractions
(`JsRat`, kept unnormalized so that every operation the routes perform is
structural and kernel-computable).  External effects (the two `fetch` calls,
the SQL queries, `JSON.parse`) are modelled at their boundary: a fetch is an
oracle value describing the response, `JSON.parse` of an `app_data` cell is
a cell that is either parsable (with its parse) or not, and the two SQL
statements used by the code (`SELECT ... WHERE provider_id = $1 ORDER BY id
DESC` and `SELECT app_data ... WHERE app_data IS NOT NULL`) are given their
standard meaning as filter/sort over a list of rows.
-/

/-- JS strings, modelled as lists of characters. -/
abbrev Str := List Char

/-- Whitespace characters recognised by the model of `String.prototype.trim`
and of the leading/trailing trimming done by `Number(string)`. -/
def isWsChar (c : Char) : Bool :=
  (c == ' ') || (c == '\t') || (c == '\n') || (c == '\r') ||
  (c == '\x0b') || (c == '\x0c')

/-- Model of JS `s.trim()`: drop leading and trailing whitespace. -/
def trimStr (s : Str) : Str :=
  ((s.dropWhile isWsChar).reverse.dropWhile isWsChar).reverse

/-- ASCII lowercasing of one character (model of `toLowerCase` restricted to
ASCII; characters outside A–Z are left unchanged). -/
def lowerChar (c : Char) : Char :=
  if 'A' ≤ c ∧ c ≤ 'Z' then Char.ofNat (c.toNat + 32) else c

/-- Model of JS `s.toLowerCase()` (ASCII). -/
def toLowerStr (s : Str) : Str := s.map lowerChar

/-- Model of JS `s.replace(/\D/g, "")`: keep only decimal digits. -/
def digitsOnly (s : Str) : Str := s.filter Char.isDigit

/-- An exact, unnormalized fraction modelling a finite JS number.  All
fractions built by this development have a positive denominator. -/
structure JsRat where
  num : Int
  den : Nat
deriving DecidableEq

/-- The fraction `n / 1` for an integer `n`. -/
def JsRat.ofInt (n : Int) : JsRat := ⟨n, 1⟩

/-- Model of the JS comparison `x < 0` on a finite number. -/
def JsRat.negB (r : JsRat) : Bool := r.num < 0

/-- Model of the JS comparison `x > n` (for a natural bound `n`) on a finite
number: cross-multiplied form, valid for positive denominators. -/
def JsRat.gtNatB (r : JsRat) (n : Nat) : Bool := (n : Int) * (r.den : Int) < r.num

/-- Model of JS `x !== 0` truthiness of a finite number. -/
def JsRat.nonzeroB (r : JsRat) : Bool := r.num != 0

/-- JSON-representable JS values as they occur in request bodies.
(Objects are not needed as generic values: the only object-shaped data the
routes inspect — `app_data` blobs — is modelled by the dedicated `AppData`
structure below.) -/
inductive JsVal where
  | vStr (s : Str)
  | vNum (q : JsRat)
  | vBool (b : Bool)
  | vNull
  | vUndefined
  | vArr (l : List JsVal)

open JsVal

/-- JS truthiness of a value. -/
def jsTruthy : JsVal → Bool
  | vStr s => !s.isEmpty
  | vNum q => q.nonzeroB
  | vBool b => b
  | vNull => false
  | vUndefined => false
  | vArr _ => true

/-- JS `a || b`. -/
def jsOr (a b : JsVal) : JsVal := if jsTruthy a then a else b

/-- Is the value `null` or `undefined` (the values skipped by `??`)? -/
def jsNullish : JsVal → Bool
  | vNull => true
  | vUndefined => true
  | _ => false

/-- JS `a ?? b`. -/
def jsCoalesce (a b : JsVal) : JsVal := if jsNullish a then b else a

/-- Decimal digits of a natural number. -/
def natToStr (n : Nat) : Str := Nat.toDigits 10 n

/-- Decimal rendering of a finite number: exact for integral fractions;
other fractions are rendered as `num/den` (an approximation of JS number
printing that no claim exercises — the routes only ever stringify integral
ids). -/
def ratToStr (q : JsRat) : Str :=
  let sign : Str := if q.num < 0 then ['-'] else []
  if q.den = 1 then sign ++ natToStr q.num.natAbs
  else sign ++ natToStr q.num.natAbs ++ ['/'] ++ natToStr q.den

/-- Model of JS `String(x)`.  (`String([])` is `""`; stringification of
non-empty arrays — comma-joined element strings in JS — is approximated by
`""` as well, since no route stringifies a non-empty array on any path a
claim talks about.) -/
def jsToString : JsVal → Str
  | vStr s => s
  | vNum q => ratToStr q
  | vBool true => ("true").data
  | vBool false => ("false").data
  | vNull => ("null").data
  | vUndefined => ("undefined").data
  | vArr _ => []

/-- A JS number: either `NaN` or a finite fraction.  (JSON bodies cannot
carry `NaN`/`Infinity`, and every non-finite result of `Number` in the
routes is rejected the same way `NaN` is, so one non-finite point suffices.) -/
inductive JsNum where
  | nan
  | fin (q : JsRat)
deriving DecidableEq

/-- Read a maximal run of decimal digits: value, number of digits, rest. -/
def readDigits : Str → Nat → Nat → Nat × Nat × Str
  | [], acc, cnt => (acc, cnt, [])
  | c :: rest, acc, cnt =>
    if c.isDigit then readDigits rest (10 * acc + (c.toNat - '0'.toNat)) (cnt + 1)
    else (acc, cnt, c :: rest)

/-- Parse an unsigned decimal literal (`123`, `123.45`, `.5`, `5.`),
the forms of JS numeric strings the routes can meet (no exponents or hex:
such strings simply fail to parse here, mirroring rejection in the routes). -/
def parseDecCore (l : Str) : Option JsRat :=
  let (ip, icnt, rest) := readDigits l 0 0
  match rest with
  | [] => if icnt = 0 then none else some (JsRat.ofInt ip)
  | '.' :: rest2 =>
    let (fp, fcnt, rest3) := readDigits rest2 0 0
    if rest3 ≠ [] then none
    else if icnt = 0 ∧ fcnt = 0 then none
    else some ⟨(ip * 10 ^ fcnt + fp : Nat), 10 ^ fcnt⟩
  | _ => none

/-- Model of JS `Number(string)`: trim; empty ⇒ `0`; optional sign followed
by a decimal literal; anything else ⇒ `NaN`. -/
def parseNumber (s : Str) : JsNum :=
  match trimStr s with
  | [] => JsNum.fin (JsRat.ofInt 0)
  | '+' :: rest =>
    match parseDecCore rest with
    | some q => JsNum.fin q
    | none => JsNum.nan
  | '-' :: rest =>
    match parseDecCore rest with
    | some q => JsNum.fin ⟨-q.num, q.den⟩
    | none => JsNum.nan
  | t =>
    match parseDecCore t with
    | some q => JsNum.fin q
    | none => JsNum.nan

/-- Model of JS `Number(x)` on the values of `JsVal`. -/
def jsToNumber : JsVal → JsNum
  | vStr s => parseNumber s
  | vNum q => JsNum.fin q
  | vBool b => JsNum.fin (JsRat.ofInt (if b then 1 else 0))
  | vNull => JsNum.fin (JsRat.ofInt 0)
  | vUndefined => JsNum.nan
  | vArr [] => JsNum.fin (JsRat.ofInt 0)
  | vArr [x] => jsToNumber x
  | vArr (_ :: _ :: _) => JsNum.nan

/-- The truthy content of an optional string field: `some` only when the
field is present and nonempty (JS `x?.f || y` falls through on `""`). -/
def truthyOpt : Option Str → Option Str
  | some s => if s = [] then none else some s
  | none => none

/-- First alternative if present, else the second. -/
def orElseOpt (a b : Option Str) : Option Str :=
  match a with
  | some s => some s
  | none => b

/-!
Provider signup (src/unnamed/part_000)

`normalizeSignupInput`, `validateFields`, `createReferringProvider`,
`createAuthorizerUser` and `router.post("/signup")`.  The two `fetch` calls
are modelled by oracle values (`FetchOutcome`): either a network-level
rejection or a response with an HTTP `ok` flag and a body already shaped the
way `parseJsonSafe` + optional-chaining shape it (an unparsable body is the
all-`none` record).  Thrown exceptions are values of `Thrown`; the call
trace records each outbound request actually issued, in order.
-/

/-- The raw signup payload (`req.body`) with the seven fields the route
reads; each may be any JSON value. -/
structure SignupPayload where
  firstName : JsVal
  lastName : JsVal
  practiceName : JsVal
  npi : JsVal
  email : JsVal
  phone : JsVal
  password : JsVal

/-- The normalized signup input (every field a string). -/
structure SignupInput where
  firstName : Str
  lastName : Str
  practiceName : Str
  npi : Str
  email : Str
  phone : Str
  password : Str
deriving DecidableEq

/-- `toTrimmedString` from `normalizeSignupInput`: trim a string, map any
non-string to `""`. -/
def toTrimmedString : JsVal → Str
  | JsVal.vStr s => trimStr s
  | _ => []

/-- `normalizeSignupInput(payload)`: trim the string fields, strip non-digits
from `npi` and `phone`, and pass `password` through verbatim when it is a
string (otherwise `""`). -/
def normalizeSignupInput (p : SignupPayload) : SignupInput :=
  { firstName := toTrimmedString p.firstName
    lastName := toTrimmedString p.lastName
    practiceName := toTrimmedString p.practiceName
    npi := digitsOnly (toTrimmedString p.npi)
    email := toTrimmedString p.email
    phone := digitsOnly (toTrimmedString p.phone)
    password := match p.password with
      | JsVal.vStr s => s
      | _ => [] }

/-- The seven required signup fields, in the order the route lists them. -/
inductive SField where
  | firstName | lastName | practiceName | npi | email | phone | password
deriving DecidableEq

/-- The JS property-name string of a required field. -/
def fieldName : SField → Str
  | SField.firstName => ("firstName").data
  | SField.lastName => ("lastName").data
  | SField.practiceName => ("practiceName").data
  | SField.npi => ("npi").data
  | SField.email => ("email").data
  | SField.phone => ("phone").data
  | SField.password => ("password").data

/-- `input[field]` on a normalized input. -/
def fieldVal (i : SignupInput) : SField → Str
  | SField.firstName => i.firstName
  | SField.lastName => i.lastName
  | SField.practiceName => i.practiceName
  | SField.npi => i.npi
  | SField.email => i.email
  | SField.phone => i.phone
  | SField.password => i.password

/-- The list passed to `validateFields` by the signup route. -/
def requiredFields : List SField :=
  [SField.firstName, SField.lastName, SField.practiceName, SField.npi,
   SField.email, SField.phone, SField.password]

/-- `validateFields(input, requiredFields)`: the required fields whose value
is falsy (for strings: empty). -/
def validateFields (i : SignupInput) : List SField :=
  requiredFields.filter (fun f => fieldVal i f = [])

/-- An `ApiError` (message, HTTP status, machine code; the optional
`details` payload is not observed by any claim and is omitted). -/
structure ApiError where
  message : Str
  status : Nat
  code : Str
deriving DecidableEq

/-- A thrown exception: an `ApiError`, or a generic `Error` (e.g. a rejected
`fetch`), which carries no `status`/`code`. -/
inductive Thrown where
  | api (e : ApiError)
  | generic (message : Str)
deriving DecidableEq

/-- Outcome of one `fetch` to an external service: either a network-level
rejection of the promise, or an HTTP response with its `ok` flag and a body
of shape `β` (the body as seen after `parseJsonSafe`). -/
inductive FetchOutcome (β : Type) where
  | netError
  | response (ok : Bool) (body : β)

/-- A GraphQL error entry (`body.errors[i]`); `message` is `none` when the
field is absent or the entry is not an object. -/
structure GqlError where
  message : Option Str
deriving DecidableEq

/-- `body?.errors?.length` is truthy: an errors array is present and
non-empty. -/
def errsNonempty : Option (List GqlError) → Bool
  | some (_ :: _) => true
  | _ => false

/-- `getGraphQlErrorMessage(body, fallback)`:
`body?.errors?.[0]?.message || body?.message || fallback`. -/
def getGraphQlErrorMessage (errors : Option (List GqlError))
    (bodyMsg : Option Str) (fallback : Str) : Str :=
  let m1 : Option Str :=
    match errors with
    | some (e :: _) => e.message
    | _ => none
  match truthyOpt m1 with
  | some s => s
  | none =>
    match truthyOpt bodyMsg with
    | some s => s
    | none => fallback

/-- `isAuthorizerDuplicate(message)`: the case-insensitive regex
`/already exists|user exists|duplicate/i` as a substring test. -/
def isAuthorizerDuplicate (message : Str) : Bool :=
  let low := toLowerStr message
  decide (("already exists").data <:+: low) ||
  decide (("user exists").data <:+: low) ||
  decide (("duplicate").data <:+: low)

/-- A physician reference in the Healthie response
(`referring_physician` / `duplicated_physician`); `id` is `none` when the
`id` field is absent. -/
structure PhysRef where
  id : Option Str
deriving DecidableEq

/-- An entry of `result.messages`; the value of its `message` field
(`none` when the entry is not an object carrying one). -/
structure MsgEntry where
  message : Option Str
deriving DecidableEq

/-- `body.data.createReferringPhysician` as the client inspects it.
`messages` is `none` when the field is not an array. -/
structure HealthieResult where
  referring_physician : Option PhysRef
  duplicated_physician : Option PhysRef
  messages : Option (List MsgEntry)
deriving DecidableEq

/-- The parsed Healthie response body as the client inspects it:
`result` models `body?.data?.createReferringPhysician` (collapsing the two
optional hops), `message` models top-level `body?.message`. -/
structure HealthieBody where
  errors : Option (List GqlError)
  message : Option Str
  result : Option HealthieResult
deriving DecidableEq

/-- The parsed Authorizer response body: `signup` models the truthiness of
`body?.data?.signup`. -/
structure AuthBody where
  errors : Option (List GqlError)
  message : Option Str
  signup : Bool
deriving DecidableEq

/-- Presence of the required configuration secrets (a `requireEnv` of the
corresponding variable succeeds iff the flag is `true`). -/
structure Env where
  healthieAuth : Bool
  authorizerSecret : Bool

/-- The variables object of the Healthie mutation request. -/
structure HealthieReq where
  first_name : Str
  last_name : Str
  business_name : Str
  phone_number : Str
  email : Str
  npi : Str
  other_id : Str
deriving DecidableEq

/-- The `params` object of the Authorizer signup mutation request
(`roles: ["user"]` is constant and omitted). -/
structure AuthReq where
  email : Str
  password : Str
  confirm_password : Str
  given_name : Str
  family_name : Str
  phone_number : Str
  app_data_practice_name : Str
  nickname : Str
deriving DecidableEq

/-- One outbound request actually issued by the signup route. -/
inductive CallEvent where
  | healthieCall (req : HealthieReq)
  | authorizerCall (req : AuthReq)
deriving DecidableEq

/-- The Healthie request built from the normalized input. -/
def healthieRequestOf (i : SignupInput) : HealthieReq :=
  { first_name := i.firstName
    last_name := i.lastName
    business_name := i.practiceName
    phone_number := i.phone
    email := i.email
    npi := i.npi
    other_id := ("InsomniaRX").data }

/-- The Authorizer request built from the normalized input and the Healthie
provider id (`nickname: String(healthieProviderId)`). -/
def authRequestOf (i : SignupInput) (healthieProviderId : Str) : AuthReq :=
  { email := i.email
    password := i.password
    confirm_password := i.password
    given_name := i.firstName
    family_name := i.lastName
    phone_number := i.phone
    app_data_practice_name := i.practiceName
    nickname := healthieProviderId }

/-- Result of `createReferringProvider`: `duplicated`, optional human
message, and the recovered Healthie provider id. -/
structure HealthieOutcome where
  duplicated : Bool
  message : Option Str
  id : Str
deriving DecidableEq

/-- Result of `createAuthorizerUser`. -/
structure AuthOutcome where
  duplicated : Bool
deriving DecidableEq

/-- Fallback message of the Healthie client. -/
def healthieFallbackMsg : Str :=
  ("Unable to create referring provider in Healthie.").data

/-- Fallback message of the Authorizer client. -/
def authFallbackMsg : Str := ("Unable to create Authorizer account.").data

/-- `messages.find((entry) => entry?.message)?.message || ""`. -/
def firstEntryMessage : List MsgEntry → Str
  | [] => []
  | e :: rest =>
    match e.message with
    | some s => if s = [] then firstEntryMessage rest else s
    | none => firstEntryMessage rest

/-- `id` of an optional physician reference (`x?.id`). -/
def physId : Option PhysRef → Option Str
  | some p => p.id
  | none => none

/-- `createReferringProvider(input)`: check the credential, issue the
mutation, classify the response.  Returns the outcome (or the thrown
exception) together with the list of outbound requests issued. -/
def createReferringProvider (env : Env) (fetchRes : FetchOutcome HealthieBody)
    (input : SignupInput) : Except Thrown HealthieOutcome × List CallEvent :=
  if ¬env.healthieAuth then
    (Except.error (Thrown.api
      { message := ("Missing required environment variable: HEALTHIE_AUTHORIZATION").data
        status := 500, code := ("CONFIG_ERROR").data }), [])
  else
    let ev := [CallEvent.healthieCall (healthieRequestOf input)]
    match fetchRes with
    | FetchOutcome.netError => (Except.error (Thrown.generic (("fetch failed").data)), ev)
    | FetchOutcome.response ok body =>
      if ¬ok ∨ errsNonempty body.errors then
        (Except.error (Thrown.api
          { message := getGraphQlErrorMessage body.errors body.message healthieFallbackMsg
            status := 502, code := ("HEALTHIE_ERROR").data }), ev)
      else
        match body.result with
        | none =>
          (Except.error (Thrown.api
            { message := healthieFallbackMsg, status := 502
              code := ("HEALTHIE_ERROR").data }), ev)
        | some r =>
          let msgs := r.messages.getD []
          let message := firstEntryMessage msgs
          let providerId := orElseOpt (truthyOpt (physId r.referring_physician))
            (truthyOpt (physId r.duplicated_physician))
          match providerId with
          | none =>
            (Except.error (Thrown.api
              { message := if message = [] then healthieFallbackMsg else message
                status := 422, code := ("HEALTHIE_CREATE_FAILED").data }), ev)
          | some pid =>
            (Except.ok
              { duplicated := r.duplicated_physician.isSome
                message := if message = [] then none else some message
                id := pid }, ev)

/-- `createAuthorizerUser(input, healthieProviderId)`: check the secret,
issue the signup mutation, classify the response; an error whose message
matches the duplicate pattern counts as success-as-duplicate. -/
def createAuthorizerUser (env : Env) (fetchRes : FetchOutcome AuthBody)
    (input : SignupInput) (healthieProviderId : Str) :
    Except Thrown AuthOutcome × List CallEvent :=
  if ¬env.authorizerSecret then
    (Except.error (Thrown.api
      { message := ("Missing required environment variable: AUTHORIZER_ADMIN_SECRET").data
        status := 500, code := ("CONFIG_ERROR").data }), [])
  else
    let ev := [CallEvent.authorizerCall (authRequestOf input healthieProviderId)]
    match fetchRes with
    | FetchOutcome.netError => (Except.error (Thrown.generic (("fetch failed").data)), ev)
    | FetchOutcome.response ok body =>
      if ¬ok ∨ errsNonempty body.errors then
        let message := getGraphQlErrorMessage body.errors body.message authFallbackMsg
        if isAuthorizerDuplicate message then (Except.ok { duplicated := true }, ev)
        else
          (Except.error (Thrown.api
            { message := message, status := 502
              code := ("AUTHORIZER_ERROR").data }), ev)
      else if ¬body.signup then
        (Except.error (Thrown.api
          { message := authFallbackMsg, status := 502
            code := ("AUTHORIZER_ERROR").data }), ev)
      else (Except.ok { duplicated := false }, ev)

/-- The JSON response of the signup route. -/
inductive SignupResponse where
  | badRequest (fields : List Str)
  | failure (status : Nat) (code : Str) (message : Str)
  | success (healthie : HealthieOutcome) (authorizer : AuthOutcome)
deriving DecidableEq

/-- `handleApiError(res, error)`: status, code and message of the error
response (`error?.status || 500`, `error?.code || "PROVIDER_SIGNUP_FAILED"`,
`error?.message || ...`). -/
def handleApiError : Thrown → SignupResponse
  | Thrown.api e =>
    SignupResponse.failure
      (if e.status = 0 then 500 else e.status)
      (if e.code = [] then ("PROVIDER_SIGNUP_FAILED").data else e.code)
      (if e.message = [] then ("Unable to create provider account.").data else e.message)
  | Thrown.generic m =>
    SignupResponse.failure 500 (("PROVIDER_SIGNUP_FAILED").data)
      (if m = [] then ("Unable to create provider account.").data else m)

/-- The oracle for one signup request: outcomes of the two fetches (the
authorizer one is consulted only if that call is made). -/
structure SignupWorld where
  healthie : FetchOutcome HealthieBody
  authorizer : FetchOutcome AuthBody

/-- `router.post("/signup")`: normalize, validate, call Healthie, then call
Authorizer with the Healthie id, catching thrown errors.  Returns the JSON
response and the trace of outbound requests, in order. -/
def signupHandler (env : Env) (world : SignupWorld) (payload : SignupPayload) :
    SignupResponse × List CallEvent :=
  let input := normalizeSignupInput payload
  let missing := validateFields input
  if missing ≠ [] then (SignupResponse.badRequest (missing.map fieldName), [])
  else
    match createReferringProvider env world.healthie input with
    | (Except.error e, ev1) => (handleApiError e, ev1)
    | (Except.ok healthie, ev1) =>
      match createAuthorizerUser env world.authorizer input healthie.id with
      | (Except.error e, ev2) => (handleApiError e, ev1 ++ ev2)
      | (Except.ok authorizer, ev2) =>
        (SignupResponse.success healthie authorizer, ev1 ++ ev2)

/-!
Patients routes (src/unnamed/part_001)

`treatmentsToFlags`, `normalizePracticeName`, `extractHealthieProviderId`,
the practice-name scan of `router.post("/public")`, the intake insert of
`router.post("/")` and the token-authenticated `router.get("/")`.

`JSON.parse` (inside `parseJsonSafe`/`parseAppData`) is an external runtime
builtin; an `app_data` cell is therefore modelled as either a string cell
together with the result of parsing it (`none` when parsing fails or does
not yield an object) or an already-structured object cell.
-/

/-- The `app_data` JSON blob as the routes inspect it: the four fields that
are ever read.  Absent fields are `vUndefined`. -/
structure AppData where
  practice_name : JsVal
  healthie_provider_id : JsVal
  healthie_providerId : JsVal
  healthie_id : JsVal

/-- The all-absent blob (also the shape seen when the parsed JSON value is
not an object: every property access yields `undefined`). -/
def AppData.empty : AppData :=
  ⟨JsVal.vUndefined, JsVal.vUndefined, JsVal.vUndefined, JsVal.vUndefined⟩

/-- One `app_data` column value.  `strCell p` is a string cell whose
`JSON.parse` result is `p` (`none`: parse failure, or a parsed value with no
object properties — both make every property access yield `undefined`);
`objCell` is a json(b) object; `otherCell` is any non-string non-object
value (its property accesses also yield `undefined`). -/
inductive AppDataVal where
  | strCell (parsed : Option AppData)
  | objCell (d : AppData)
  | otherCell

/-- The object the routes read fields from, after
`typeof v === "string" ? parseJsonSafe(v) : v` (the scan in `/public`) or
`parseAppData` (the GET route) — both reduce to this. -/
def appDataOf : AppDataVal → Option AppData
  | AppDataVal.strCell p => p
  | AppDataVal.objCell d => some d
  | AppDataVal.otherCell => none

/-- `normalizePracticeName(value)`:
`String(value || "").trim().toLowerCase()`. -/
def normalizePracticeName (v : JsVal) : Str :=
  toLowerStr (trimStr (jsToString (jsOr v (JsVal.vStr []))))

/-- `extractHealthieProviderId(appData)`: take the first non-nullish of the
three alias fields, stringify, trim; empty ⇒ `null`. -/
def extractHealthieProviderId (d : Option AppData) : Option Str :=
  match d with
  | none => none
  | some a =>
    let candidate := jsCoalesce a.healthie_provider_id
      (jsCoalesce a.healthie_providerId a.healthie_id)
    if jsNullish candidate then none
    else
      let id := trimStr (jsToString candidate)
      if id = [] then none else some id

/-- The normalized stored practice name of a row in the scan:
`typeof data?.practice_name === "string" ? normalizePracticeName(...) : ""`. -/
def storedPracticeName (cell : AppDataVal) : Str :=
  match appDataOf cell with
  | some d =>
    match d.practice_name with
    | JsVal.vStr s => normalizePracticeName (JsVal.vStr s)
    | _ => []
  | none => []

/-- The scan loop of `router.post("/public")` over the rows of
`SELECT app_data FROM authorizer_users WHERE app_data IS NOT NULL`:
the first row whose nonempty normalized practice name equals the wanted one
*and* that yields an extractable provider id wins; rows that match by name
but yield no id are passed over and the scan continues. -/
def findHealthieProviderId (wanted : Str) : List AppDataVal → Option Str
  | [] => none
  | cell :: rest =>
    let practice := storedPracticeName cell
    if practice ≠ [] ∧ practice = wanted then
      match extractHealthieProviderId (appDataOf cell) with
      | some hid => some hid
      | none => findHealthieProviderId wanted rest
    else findHealthieProviderId wanted rest

/-- The six treatment flags. -/
structure TxFlags where
  tx_cbti : Bool
  tx_cpap_comisa : Bool
  tx_sleep_eeg : Bool
  tx_zepbound_osa : Bool
  tx_natural_products : Bool
  tx_insomnia_meds_mgmt : Bool
deriving DecidableEq

/-- Does the treatments array contain exactly this label string
(`Array.prototype.includes` against a string)? -/
def containsLabel (l : List JsVal) (label : Str) : Bool :=
  l.any (fun v =>
    match v with
    | JsVal.vStr t => t == label
    | _ => false)

/-- `treatmentsToFlags(suggestedTreatments)` with the fixed
`TREATMENT_LABELS` table; a non-array input counts as `[]`. -/
def treatmentsToFlags (v : JsVal) : TxFlags :=
  let ts : List JsVal :=
    match v with
    | JsVal.vArr l => l
    | _ => []
  { tx_cbti := containsLabel ts (("Cognitive Behavioral Therapy for Insomnia").data)
    tx_cpap_comisa := containsLabel ts
      (("CPAP Compliance Program for COMISA (Co-morbid Insomnia with Sleep Apnea)").data)
    tx_sleep_eeg := containsLabel ts (("Sleep EEG for Insomnia").data)
    tx_zepbound_osa := containsLabel ts (("Zepbound Rx for OSA").data)
    tx_natural_products := containsLabel ts (("Natural Products for Insomnia").data)
    tx_insomnia_meds_mgmt := containsLabel ts
      (("Insomnia Medications Management* (help patients treat insomnia without addictive medications)").data) }

/-- Is `isiScore` one of the values `"" `/`null`/`undefined` that the
routes short-circuit to "no score"? -/
def isiBlank : JsVal → Bool
  | JsVal.vStr [] => true
  | JsVal.vNull => true
  | JsVal.vUndefined => true
  | _ => false

/-- The `isi` computation shared by both intake routes:
`""`/`null`/`undefined` ⇒ no score; otherwise `Number(isiScore)`, rejected
unless finite and in `[0, 28]`.  `none` = rejected (400),
`some none` = no score, `some (some q)` = score `q`. -/
def isiOf (isiScore : JsVal) : Option (Option JsRat) :=
  if isiBlank isiScore then some none
  else
    match jsToNumber isiScore with
    | JsNum.nan => none
    | JsNum.fin q => if q.negB ∨ q.gtNatB 28 then none else some (some q)

/-- The `email` insert expression `(email || "").trim() || null`:
`some e` on success, `none` when the value is truthy but not a string
(`.trim` would throw a `TypeError`, downgraded to a 500 by the route). -/
def emailOf (email : JsVal) : Option (Option Str) :=
  match jsOr email (JsVal.vStr []) with
  | JsVal.vStr s =>
    let t := trimStr s
    some (if t = [] then none else some t)
  | _ => none

/-- A row inserted into the `patients` table (the generated `id` is
assigned by the store and not part of the inserted values). -/
structure PatientRow where
  provider_id : Str
  full_name : Str
  date_of_birth : JsVal
  mobile : Str
  email : Option Str
  isi_score : Option JsRat
  flags : TxFlags

/-- A request body for `POST /api/patients` (`provider_id` flow). -/
structure IntakeBody where
  provider_id : JsVal
  name : JsVal
  dateOfBirth : JsVal
  mobile : JsVal
  email : JsVal
  isiScore : JsVal
  suggestedTreatments : JsVal

/-- A request body for `POST /api/patients/public` (practice-name flow). -/
structure PublicBody where
  practiceName : JsVal
  name : JsVal
  dateOfBirth : JsVal
  mobile : JsVal
  email : JsVal
  isiScore : JsVal
  suggestedTreatments : JsVal

/-- Result of an intake route: the HTTP outcome, with the inserted row and
the echoed practice name on success.  `serverError` covers the `catch`-all
500 (in this model, only a `TypeError` from calling `.trim()` on a truthy
non-string). -/
inductive IntakeResult where
  | badRequest (error : Str)
  | notFound (error : Str)
  | created (row : PatientRow) (echoPractice : Option Str)
  | serverError

/-- The check `!x || !x.trim()` on a required string field, as used for
`name` and `mobile`: `some t` (the trimmed value) when the field is a string
with nonempty trim, `none (false)` when the check rejects (400), and
`none (true)` when JS would throw (truthy non-string). -/
def requiredTrimmed (v : JsVal) : Except Bool Str :=
  if ¬jsTruthy v then Except.error false
  else
    match v with
    | JsVal.vStr s =>
      let t := trimStr s
      if t = [] then Except.error false else Except.ok t
    | _ => Except.error true

/-- `router.post("/")` of the patients router (`part_001` variant): validate
fields, validate `isiScore`, translate treatments and insert one row.  The
inserted `provider_id` is `String(provider_id).trim()`. -/
def patientsPost (b : IntakeBody) : IntakeResult :=
  if ¬jsTruthy b.provider_id then
    IntakeResult.badRequest (("provider_id is required").data)
  else
    match requiredTrimmed b.name with
    | Except.error true => IntakeResult.serverError
    | Except.error false => IntakeResult.badRequest (("name is required").data)
    | Except.ok nameT =>
      if ¬jsTruthy b.dateOfBirth then
        IntakeResult.badRequest (("dateOfBirth is required").data)
      else
        match requiredTrimmed b.mobile with
        | Except.error true => IntakeResult.serverError
        | Except.error false => IntakeResult.badRequest (("mobile is required").data)
        | Except.ok mobileT =>
          match isiOf b.isiScore with
          | none => IntakeResult.badRequest (("isiScore must be 0-28").data)
          | some isi =>
            match emailOf b.email with
            | none => IntakeResult.serverError
            | some email =>
              IntakeResult.created
                { provider_id := trimStr (jsToString b.provider_id)
                  full_name := nameT
                  date_of_birth := b.dateOfBirth
                  mobile := mobileT
                  email := email
                  isi_score := isi
                  flags := treatmentsToFlags b.suggestedTreatments } none

/-- The body of `router.post("/public")` after the `practiceName` presence
check: validate the remaining fields, resolve the provider id by scanning
stored `app_data` practice names (`wanted` is the normalized requested
name), validate `isiScore`, insert, and echo `echo` (the trimmed requested
name) with the resolved id.  None of these steps reads `practiceName`
again. -/
def publicCore (accounts : List AppDataVal) (b : PublicBody)
    (wanted echo : Str) : IntakeResult :=
  match requiredTrimmed b.name with
  | Except.error true => IntakeResult.serverError
  | Except.error false => IntakeResult.badRequest (("name is required").data)
  | Except.ok nameT =>
    if ¬jsTruthy b.dateOfBirth then
      IntakeResult.badRequest (("dateOfBirth is required").data)
    else
      match requiredTrimmed b.mobile with
      | Except.error true => IntakeResult.serverError
      | Except.error false => IntakeResult.badRequest (("mobile is required").data)
      | Except.ok mobileT =>
        match findHealthieProviderId wanted accounts with
        | none =>
          IntakeResult.notFound
            (("Practice not found (no healthie_provider_id stored for that practice).").data)
        | some hid =>
          match isiOf b.isiScore with
          | none => IntakeResult.badRequest (("isiScore must be 0-28").data)
          | some isi =>
            match emailOf b.email with
            | none => IntakeResult.serverError
            | some email =>
              IntakeResult.created
                { provider_id := hid
                  full_name := nameT
                  date_of_birth := b.dateOfBirth
                  mobile := mobileT
                  email := email
                  isi_score := isi
                  flags := treatmentsToFlags b.suggestedTreatments }
                (some echo)

/-- `router.post("/public")` (`part_001` variant): check `practiceName`,
then run the rest of the handler. -/
def publicPost (accounts : List AppDataVal) (b : PublicBody) : IntakeResult :=
  if ¬jsTruthy b.practiceName ∨ trimStr (jsToString b.practiceName) = [] then
    IntakeResult.badRequest (("practiceName is required").data)
  else
    publicCore accounts b (normalizePracticeName b.practiceName)
      (trimStr (jsToString b.practiceName))

/-- A stored row of the `patients` table as returned by `SELECT *`
(`id` is the generated primary key). -/
structure DbPatient where
  id : Nat
  provider_id : Str
  full_name : Str
deriving DecidableEq

/-- Insert a row into a list sorted by descending `id` (standard meaning of
`ORDER BY id DESC`). -/
def insertDescById (r : DbPatient) : List DbPatient → List DbPatient
  | [] => [r]
  | x :: xs => if x.id ≤ r.id then r :: x :: xs else x :: insertDescById r xs

/-- Sort rows by descending `id`. -/
def sortDescById : List DbPatient → List DbPatient
  | [] => []
  | x :: xs => insertDescById x (sortDescById xs)

/-- `SELECT * FROM patients WHERE provider_id = $1 ORDER BY id DESC`. -/
def selectPatientsByProvider (db : List DbPatient) (pid : Str) : List DbPatient :=
  sortDescById (db.filter (fun r => r.provider_id == pid))

/-- `getBearerToken(req)`: the `Authorization` header must start with
`"Bearer "`; the rest, trimmed, must be nonempty. -/
def getBearerToken (authorization : Option Str) : Option Str :=
  let h := authorization.getD []
  if (("Bearer ").data).isPrefixOf h then
    let t := trimStr (h.drop 7)
    if t = [] then none else some t
  else none

/-- The Authorizer profile object (`body.data.profile`) as the GET route
reads it: only its `app_data` value matters. -/
structure ProfileObj where
  app_data : AppDataVal

/-- The parsed body of the Authorizer profile query. -/
structure ProfileBody where
  errors : Option (List GqlError)
  profile : Option ProfileObj

/-- `fetchAuthorizerProfile(token)`: `none` models every thrown path
(network failure, non-ok status, GraphQL errors, missing profile) — the GET
route catches them all identically. -/
def profileOf : FetchOutcome ProfileBody → Option ProfileObj
  | FetchOutcome.netError => none
  | FetchOutcome.response ok body =>
    if ¬ok ∨ errsNonempty body.errors then none else body.profile

/-- `parseAppData(value)` differs from the scan's inline parse only in its
leading falsy check, which changes nothing observable: falsy values are
exactly `otherCell`-like values whose property reads yield `undefined`. -/
def parseAppData (v : AppDataVal) : Option AppData := appDataOf v

/-- Response of `GET /api/patients`. -/
inductive GetPatientsResult where
  | unauthorized (error : Str)
  | forbidden (error : Str)
  | okPatients (patients : List DbPatient) (provider_id : Str)
deriving DecidableEq

/-- `router.get("/")`: extract the bearer token, fetch the profile, extract
the provider id from `app_data`, and return that provider's rows ordered by
descending `id`. -/
def getPatients (db : List DbPatient) (pf : FetchOutcome ProfileBody)
    (authorization : Option Str) : GetPatientsResult :=
  match getBearerToken authorization with
  | none => GetPatientsResult.unauthorized (("Missing access token.").data)
  | some _token =>
    match profileOf pf with
    | none => GetPatientsResult.unauthorized (("Invalid or expired token.").data)
    | some profile =>
      match extractHealthieProviderId (parseAppData profile.app_data) with
      | none =>
        GetPatientsResult.forbidden
          (("No healthie_provider_id found for this user.").data)
      | some providerId =>
        GetPatientsResult.okPatients (selectPatientsByProvider db providerId) providerId

/-!
Specification-side definitions and concrete fixtures

The two `specFirstMatch…` resolvers restate resolution rules in first-match
form (one from the spec's words, one from the code's behaviour) for the
refinement theorem; the `w…`/`cx…` definitions are concrete worlds, bodies
and rows used by witnesses and counterexamples.
-/

/-- A fully valid signup payload. -/
def wpay : SignupPayload :=
  { firstName := JsVal.vStr (("  Jane ").data)
    lastName := JsVal.vStr (("Doe").data)
    practiceName := JsVal.vStr (("Clinic A").data)
    npi := JsVal.vStr (("123-45-6789").data)
    email := JsVal.vStr (("j@x.co").data)
    phone := JsVal.vStr (("(915) 474-6142").data)
    password := JsVal.vStr (("hunter2").data) }

/-- Both credentials configured. -/
def wenv : Env := ⟨true, true⟩

/-- A Healthie body reporting only a duplicated physician with id 77. -/
def wbodyDup : HealthieBody :=
  { errors := none, message := none
    result := some
      { referring_physician := none
        duplicated_physician := some ⟨some (("77").data)⟩
        messages := some [] } }

/-- World: Healthie duplicate response, Authorizer success. -/
def wworldDup : SignupWorld :=
  ⟨FetchOutcome.response true wbodyDup,
   FetchOutcome.response true { errors := none, message := none, signup := true }⟩

/-- World: Healthie network failure. -/
def wworldNetFail : SignupWorld := ⟨FetchOutcome.netError, FetchOutcome.netError⟩

/-- The duplicate-account pattern of the spec: one of the three substrings
occurs, case-insensitively, in the message. -/
def dupPattern (msg : Str) : Prop :=
  ("already exists").data <:+: toLowerStr msg
  ∨ ("user exists").data <:+: toLowerStr msg
  ∨ ("duplicate").data <:+: toLowerStr msg

/-- Authorizer error body whose first error message matches the duplicate
pattern. -/
def wbodyAuthDup : AuthBody :=
  { errors := some [⟨some (("User already EXISTS.").data)⟩]
    message := none, signup := false }

/-- Payload with a whitespace-only password. -/
def wpayWs : SignupPayload := { wpay with password := JsVal.vStr (("  ").data) }

/-- Payload with a numeric (non-string) password. -/
def wpayNumPw : SignupPayload := { wpay with password := JsVal.vNum ⟨5, 1⟩ }

/-- The row inserted by `POST /api/patients` for a validated body. -/
def insertedRow (b : IntakeBody) (nT mT : Str) (em : Option Str)
    (isi : Option JsRat) : PatientRow :=
  { provider_id := trimStr (jsToString b.provider_id)
    full_name := nT
    date_of_birth := b.dateOfBirth
    mobile := mT
    email := em
    isi_score := isi
    flags := treatmentsToFlags b.suggestedTreatments }

/-- A valid intake body (provider `p1`, no score). -/
def wib : IntakeBody :=
  { provider_id := JsVal.vStr (("p1").data)
    name := JsVal.vStr (("Pat Doe").data)
    dateOfBirth := JsVal.vStr (("2000-01-01").data)
    mobile := JsVal.vStr ((" 555-0101 ").data)
    email := JsVal.vUndefined
    isiScore := JsVal.vNum ⟨7, 1⟩
    suggestedTreatments := JsVal.vArr [JsVal.vStr (("Sleep EEG for Insomnia").data)] }

/-- Intake body with a whitespace-only `provider_id` and a fractional
`isiScore` of 2.5. -/
def cxC4Body : IntakeBody :=
  { provider_id := JsVal.vStr ((" ").data)
    name := JsVal.vStr (("Pat Doe").data)
    dateOfBirth := JsVal.vStr (("2000-01-01").data)
    mobile := JsVal.vStr (("555").data)
    email := JsVal.vUndefined
    isiScore := JsVal.vNum ⟨5, 2⟩
    suggestedTreatments := JsVal.vUndefined }

/-- The row the route inserts for `cxC4Body`. -/
def cxC4Row : PatientRow :=
  { provider_id := []
    full_name := ("Pat Doe").data
    date_of_birth := JsVal.vStr (("2000-01-01").data)
    mobile := ("555").data
    email := none
    isi_score := some ⟨5, 2⟩
    flags := ⟨false, false, false, false, false, false⟩ }

/-- Valid intake body with a whitespace-only `isiScore` string. -/
def cxC5Body : IntakeBody := { wib with isiScore := JsVal.vStr ((" ").data) }

/-- The row the route inserts for `cxC5Body`: score 0, not a rejection. -/
def cxC5Row : PatientRow :=
  { provider_id := ("p1").data
    full_name := ("Pat Doe").data
    date_of_birth := JsVal.vStr (("2000-01-01").data)
    mobile := ("555-0101").data
    email := none
    isi_score := some ⟨0, 1⟩
    flags := ⟨false, false, true, false, false, false⟩ }

/-- Resolution rule as the claim words it: the *first* account whose
normalized stored practice name equals the requested one decides the
outcome — its embedded provider id if it has one, otherwise failure. -/
def specFirstMatchResolve (wanted : Str) : List AppDataVal → Option Str
  | [] => none
  | c :: rest =>
    if storedPracticeName c = wanted then extractHealthieProviderId (appDataOf c)
    else specFirstMatchResolve wanted rest

/-- The rule the code implements, in the same first-match form: the first
account that matches by nonempty name *and* yields an extractable id
decides; name-matching accounts without an id are skipped. -/
def specFirstMatchWithId (wanted : Str) : List AppDataVal → Option Str
  | [] => none
  | c :: rest =>
    if storedPracticeName c ≠ [] ∧ storedPracticeName c = wanted
        ∧ (extractHealthieProviderId (appDataOf c)).isSome then
      extractHealthieProviderId (appDataOf c)
    else specFirstMatchWithId wanted rest

/-- An account whose `app_data` names practice `Clinic A` but stores no
provider id. -/
def cxAcctNoId : AppDataVal :=
  AppDataVal.objCell { AppData.empty with practice_name := JsVal.vStr (("Clinic A").data) }

/-- An account for the same practice (spelled differently) with provider id
`77`. -/
def cxAcctWithId : AppDataVal :=
  AppDataVal.objCell
    { AppData.empty with
        practice_name := JsVal.vStr (("  CLINIC a ").data)
        healthie_provider_id := JsVal.vStr (("77").data) }

/-- Stored accounts: the id-less match first, the id-bearing match second. -/
def cxAccounts : List AppDataVal := [cxAcctNoId, cxAcctWithId]

/-- A valid public-intake body for practice `Clinic A`. -/
def cxPubBody : PublicBody :=
  { practiceName := JsVal.vStr (("Clinic A").data)
    name := JsVal.vStr (("Pat Doe").data)
    dateOfBirth := JsVal.vStr (("2000-01-01").data)
    mobile := JsVal.vStr (("555").data)
    email := JsVal.vUndefined
    isiScore := JsVal.vUndefined
    suggestedTreatments := JsVal.vUndefined }

/-- The row the route inserts for `cxPubBody` over `cxAccounts`. -/
def cxPubRow : PatientRow :=
  { provider_id := ("77").data
    full_name := ("Pat Doe").data
    date_of_birth := JsVal.vStr (("2000-01-01").data)
    mobile := ("555").data
    email := none
    isi_score := none
    flags := ⟨false, false, false, false, false, false⟩ }

/-- The caller-observable outcome of an intake request: HTTP status and, on
success, the provider id the patient row was filed under. -/
def intakeOutcome : IntakeResult → Nat × Option Str
  | IntakeResult.badRequest _ => (400, none)
  | IntakeResult.notFound _ => (404, none)
  | IntakeResult.created row _ => (201, some row.provider_id)
  | IntakeResult.serverError => (500, none)

/-- Stored patients: two for provider 77 (out of storage order), one for 88. -/
def wdb : List DbPatient :=
  [⟨1, ("77").data, ("A").data⟩, ⟨2, ("88").data, ("B").data⟩,
   ⟨3, ("77").data, ("C").data⟩]

/-- A profile fetch whose `app_data` (a JSON string cell) yields provider 77
through the `healthie_id` alias. -/
def wprof : FetchOutcome ProfileBody :=
  FetchOutcome.response true
    ⟨none, some ⟨AppDataVal.strCell
      (some { AppData.empty with healthie_id := JsVal.vNum ⟨77, 1⟩ })⟩⟩

/-!
Lemmas and claim theorems
-/

lemma crp_events (env : Env) (f : FetchOutcome HealthieBody) (i : SignupInput) :
    (createReferringProvider env f i).2 =
      if env.healthieAuth then [CallEvent.healthieCall (healthieRequestOf i)] else [] := by
  unfold createReferringProvider
  by_cases h : env.healthieAuth
  · rw [if_neg (not_not_intro h), if_pos h]
    cases f with
    | netError => rfl
    | response ok body =>
      dsimp only
      repeat' split
      all_goals rfl
  · rw [if_pos h, if_neg h]

lemma cau_events (env : Env) (f : FetchOutcome AuthBody) (i : SignupInput) (hid : Str) :
    (createAuthorizerUser env f i hid).2 =
      if env.authorizerSecret then [CallEvent.authorizerCall (authRequestOf i hid)] else [] := by
  unfold createAuthorizerUser
  by_cases h : env.authorizerSecret
  · rw [if_neg (not_not_intro h), if_pos h]
    cases f with
    | netError => rfl
    | response ok body =>
      dsimp only
      repeat' split
      all_goals rfl
  · rw [if_pos h, if_neg h]

lemma fieldName_inj (f g : SField) (h : fieldName f = fieldName g) : f = g := by
  cases f <;> cases g <;> first | rfl | exact absurd h (by decide)

lemma mem_requiredFields (f : SField) : f ∈ requiredFields := by
  cases f <;> decide

lemma mem_validateFields (i : SignupInput) (f : SField) :
    f ∈ validateFields i ↔ fieldVal i f = [] := by
  unfold validateFields
  rw [List.mem_filter]
  simp [mem_requiredFields f]

/-- Claim C7: for every signup request in which any of the seven required
fields is empty after normalization (trim; digits-only for npi and phone),
the response is a 400 whose `fields` array lists exactly the names of the
missing fields, and no external call is made. -/
theorem signup_missing_fields_response (env : Env) (world : SignupWorld)
    (payload : SignupPayload)
    (h : validateFields (normalizeSignupInput payload) ≠ []) :
    (signupHandler env world payload).1 =
      SignupResponse.badRequest
        ((validateFields (normalizeSignupInput payload)).map fieldName)
    ∧ (signupHandler env world payload).2 = []
    ∧ ∀ f : SField,
        fieldName f ∈ (validateFields (normalizeSignupInput payload)).map fieldName
          ↔ fieldVal (normalizeSignupInput payload) f = [] := by
  refine ⟨?_, ?_, ?_⟩
  · unfold signupHandler
    rw [if_pos h]
  · unfold signupHandler
    rw [if_pos h]
  · intro f
    rw [List.mem_map]
    constructor
    · rintro ⟨g, hg, hfg⟩
      obtain rfl := fieldName_inj g f hfg
      exact (mem_validateFields _ _).1 hg
    · intro hf
      exact ⟨f, (mem_validateFields _ f).2 hf, rfl⟩

/-- Witness for C7 at a concrete payload with empty email and non-string
password. -/
theorem signup_missing_fields_response_witness :
    (signupHandler ⟨true, true⟩
        ⟨FetchOutcome.netError, FetchOutcome.netError⟩
        { firstName := JsVal.vStr (("Jane").data), lastName := JsVal.vStr (("Doe").data)
          practiceName := JsVal.vStr (("Clinic A").data), npi := JsVal.vStr (("123").data)
          email := JsVal.vStr (("  ").data), phone := JsVal.vStr (("555").data)
          password := JsVal.vNum ⟨5, 1⟩ }).1 =
      SignupResponse.badRequest [("email").data, ("password").data] := by
  have h := signup_missing_fields_response ⟨true, true⟩
    ⟨FetchOutcome.netError, FetchOutcome.netError⟩
    { firstName := JsVal.vStr (("Jane").data), lastName := JsVal.vStr (("Doe").data)
      practiceName := JsVal.vStr (("Clinic A").data), npi := JsVal.vStr (("123").data)
      email := JsVal.vStr (("  ").data), phone := JsVal.vStr (("555").data)
      password := JsVal.vNum ⟨5, 1⟩ } (by decide)
  exact h.1.trans (by decide)

/-- Claim C1: for every signup request whose normalized input has all seven
required fields non-empty, any Authorizer call comes strictly after the
Healthie call (the trace is nil, `[healthie]`, or `[healthie, authorizer]`),
and if `createReferringProvider` throws, no Authorizer call is ever made. -/
theorem signup_clinical_before_auth (env : Env) (world : SignupWorld)
    (payload : SignupPayload)
    (h : validateFields (normalizeSignupInput payload) = []) :
    ((signupHandler env world payload).2 = []
     ∨ (∃ hr, (signupHandler env world payload).2 = [CallEvent.healthieCall hr])
     ∨ ∃ hr ar, (signupHandler env world payload).2 =
         [CallEvent.healthieCall hr, CallEvent.authorizerCall ar])
    ∧ ∀ e, (createReferringProvider env world.healthie (normalizeSignupInput payload)).1
          = Except.error e →
        ∀ ar, CallEvent.authorizerCall ar ∉ (signupHandler env world payload).2 := by
  rcases hc : createReferringProvider env world.healthie (normalizeSignupInput payload)
    with ⟨r1, ev1⟩
  have hev1 : ev1 = if env.healthieAuth then
      [CallEvent.healthieCall (healthieRequestOf (normalizeSignupInput payload))] else [] := by
    have h2 := crp_events env world.healthie (normalizeSignupInput payload)
    rw [hc] at h2
    exact h2
  subst hev1
  have hmain : (signupHandler env world payload) =
      (match (r1, if env.healthieAuth then
          [CallEvent.healthieCall (healthieRequestOf (normalizeSignupInput payload))] else []) with
       | (Except.error e, ev1) => (handleApiError e, ev1)
       | (Except.ok healthie, ev1) =>
         match createAuthorizerUser env world.authorizer
             (normalizeSignupInput payload) healthie.id with
         | (Except.error e, ev2) => (handleApiError e, ev1 ++ ev2)
         | (Except.ok authorizer, ev2) =>
           (SignupResponse.success healthie authorizer, ev1 ++ ev2)) := by
    unfold signupHandler
    rw [if_neg (not_not_intro h), hc]
  cases r1 with
  | error e1 =>
    rw [hmain]
    dsimp only
    constructor
    · by_cases hH : env.healthieAuth
      · rw [if_pos hH]
        exact Or.inr (Or.inl ⟨_, rfl⟩)
      · rw [if_neg hH]
        exact Or.inl rfl
    · intro e _ ar hmem
      by_cases hH : env.healthieAuth
      · rw [if_pos hH] at hmem
        simp at hmem
      · rw [if_neg hH] at hmem
        simp at hmem
  | ok hout =>
    by_cases hH : env.healthieAuth
    · rcases ha : createAuthorizerUser env world.authorizer
          (normalizeSignupInput payload) hout.id with ⟨r2, ev2⟩
      have hev2 : ev2 = if env.authorizerSecret then
          [CallEvent.authorizerCall (authRequestOf (normalizeSignupInput payload) hout.id)]
          else [] := by
        have h2 := cau_events env world.authorizer (normalizeSignupInput payload) hout.id
        rw [ha] at h2
        exact h2
      subst hev2
      have htr : (signupHandler env world payload).2 =
          (if env.healthieAuth then
            [CallEvent.healthieCall (healthieRequestOf (normalizeSignupInput payload))] else [])
          ++ (if env.authorizerSecret then
            [CallEvent.authorizerCall (authRequestOf (normalizeSignupInput payload) hout.id)]
            else []) := by
        rw [hmain]
        dsimp only
        rw [ha]
        cases r2 <;> rfl
      constructor
      · rw [htr, if_pos hH]
        by_cases hA : env.authorizerSecret
        · rw [if_pos hA]
          exact Or.inr (Or.inr ⟨_, _, rfl⟩)
        · rw [if_neg hA]
          exact Or.inr (Or.inl ⟨_, rfl⟩)
      · intro e he
        exact absurd he (by simp)
    · exfalso
      unfold createReferringProvider at hc
      rw [if_pos hH] at hc
      exact absurd (congrArg Prod.fst hc) (by simp)

/-- Witness for C1: with Healthie failing at the network level, no
Authorizer call is recorded. -/
theorem signup_clinical_before_auth_witness :
    validateFields (normalizeSignupInput wpay) = []
    ∧ CallEvent.authorizerCall (authRequestOf (normalizeSignupInput wpay) (("77").data))
        ∉ (signupHandler wenv wworldNetFail wpay).2 := by
  refine ⟨by decide, ?_⟩
  exact (signup_clinical_before_auth wenv wworldNetFail wpay (by decide)).2
    (Thrown.generic (("fetch failed").data)) rfl _

/-- Claim C2: when the clinical response carries a `duplicated_physician`
with a (truthy) id and no `referring_physician` id, the orchestrator
recovers that id as the Healthie outcome id, and the Authorizer signup
request it then issues embeds exactly that id as the `nickname`. -/
theorem signup_duplicate_id_forwarded (env : Env) (world : SignupWorld)
    (payload : SignupPayload) (body : HealthieBody) (r : HealthieResult)
    (pr : PhysRef) (d : Str)
    (hvalid : validateFields (normalizeSignupInput payload) = [])
    (henvH : env.healthieAuth = true)
    (henvA : env.authorizerSecret = true)
    (hw : world.healthie = FetchOutcome.response true body)
    (herr : errsNonempty body.errors = false)
    (hres : body.result = some r)
    (hrp : truthyOpt (physId r.referring_physician) = none)
    (hdup : r.duplicated_physician = some pr)
    (hpid : pr.id = some d)
    (hdne : d ≠ []) :
    (∃ m, (createReferringProvider env world.healthie (normalizeSignupInput payload)).1
        = Except.ok { duplicated := true, message := m, id := d })
    ∧ ∃ ar, (signupHandler env world payload).2 =
        [CallEvent.healthieCall (healthieRequestOf (normalizeSignupInput payload)),
         CallEvent.authorizerCall ar] ∧ ar.nickname = d := by
  have hc : (createReferringProvider env world.healthie (normalizeSignupInput payload)) =
      (Except.ok
        { duplicated := true
          message := if firstEntryMessage (r.messages.getD []) = [] then none
            else some (firstEntryMessage (r.messages.getD []))
          id := d },
        [CallEvent.healthieCall (healthieRequestOf (normalizeSignupInput payload))]) := by
    unfold createReferringProvider
    rw [if_neg (not_not_intro henvH), hw]
    dsimp only
    rw [if_neg (by simp [herr]), hres]
    dsimp only
    rw [hrp, hdup]
    dsimp only [physId]
    rw [hpid]
    dsimp only [truthyOpt]
    rw [if_neg hdne]
    dsimp only [orElseOpt, Option.isSome]
  constructor
  · exact ⟨_, by rw [hc]⟩
  · rcases ha : createAuthorizerUser env world.authorizer
        (normalizeSignupInput payload) d with ⟨r2, ev2⟩
    have hev2 : ev2 = [CallEvent.authorizerCall
        (authRequestOf (normalizeSignupInput payload) d)] := by
      have h2 := cau_events env world.authorizer (normalizeSignupInput payload) d
      rw [ha, if_pos henvA] at h2
      exact h2
    subst hev2
    have htr : (signupHandler env world payload).2 =
        [CallEvent.healthieCall (healthieRequestOf (normalizeSignupInput payload))]
        ++ [CallEvent.authorizerCall (authRequestOf (normalizeSignupInput payload) d)] := by
      unfold signupHandler
      rw [if_neg (not_not_intro hvalid), hc]
      dsimp only
      rw [ha]
      cases r2 <;> rfl
    exact ⟨authRequestOf (normalizeSignupInput payload) d, by rw [htr]; rfl, rfl⟩

/-- Witness for C2: duplicate with id 77 is forwarded as the nickname. -/
theorem signup_duplicate_id_forwarded_witness :
    (signupHandler wenv wworldDup wpay).2 =
      [CallEvent.healthieCall (healthieRequestOf (normalizeSignupInput wpay)),
       CallEvent.authorizerCall (authRequestOf (normalizeSignupInput wpay) (("77").data))] := by
  have h := signup_duplicate_id_forwarded wenv wworldDup wpay wbodyDup
    { referring_physician := none
      duplicated_physician := some ⟨some (("77").data)⟩
      messages := some [] }
    ⟨some (("77").data)⟩ (("77").data)
    (by decide) rfl rfl rfl rfl rfl rfl rfl rfl (by decide)
  exact rfl

lemma isAuthorizerDuplicate_iff (msg : Str) :
    isAuthorizerDuplicate msg = true ↔ dupPattern msg := by
  unfold isAuthorizerDuplicate dupPattern
  simp [Bool.or_eq_true, decide_eq_true_iff, or_assoc]

/-- Claim C8: an Authorizer response that is a transport failure (`!ok`) or
carries a non-empty error list is classified as a thrown `AUTHORIZER_ERROR`,
except when the extracted message contains, case-insensitively, one of
"already exists", "user exists", "duplicate" — then the client returns
success-as-duplicate with no further data. -/
theorem authorizer_error_classification (env : Env) (input : SignupInput) (hid : Str)
    (ok : Bool) (body : AuthBody)
    (henv : env.authorizerSecret = true)
    (hfail : ok = false ∨ errsNonempty body.errors = true) :
    (dupPattern (getGraphQlErrorMessage body.errors body.message authFallbackMsg) →
      (createAuthorizerUser env (FetchOutcome.response ok body) input hid).1
        = Except.ok { duplicated := true })
    ∧ (¬ dupPattern (getGraphQlErrorMessage body.errors body.message authFallbackMsg) →
      (createAuthorizerUser env (FetchOutcome.response ok body) input hid).1
        = Except.error (Thrown.api
          { message := getGraphQlErrorMessage body.errors body.message authFallbackMsg
            status := 502, code := ("AUTHORIZER_ERROR").data })) := by
  have hcond : (¬ok = true ∨ errsNonempty body.errors = true) := by
    rcases hfail with h | h
    · exact Or.inl (by simp [h])
    · exact Or.inr h
  constructor
  · intro hdup
    unfold createAuthorizerUser
    rw [if_neg (not_not_intro henv)]
    dsimp only
    rw [if_pos hcond, if_pos ((isAuthorizerDuplicate_iff _).2 hdup)]
  · intro hndup
    unfold createAuthorizerUser
    rw [if_neg (not_not_intro henv)]
    dsimp only
    rw [if_pos hcond, if_neg (fun hh => hndup ((isAuthorizerDuplicate_iff _).1 hh))]

/-- Witness for C8: an error body whose message matches the duplicate
pattern yields success-as-duplicate. -/
theorem authorizer_error_classification_witness :
    (createAuthorizerUser wenv (FetchOutcome.response true wbodyAuthDup)
        (normalizeSignupInput wpay) (("77").data)).1 = Except.ok { duplicated := true } := by
  have h := authorizer_error_classification wenv (normalizeSignupInput wpay)
    (("77").data) true wbodyAuthDup rfl (Or.inr (by decide))
  exact h.1 ((isAuthorizerDuplicate_iff _).1 (by decide))

lemma authorizer_event_shape (env : Env) (world : SignupWorld)
    (payload : SignupPayload) (ar : AuthReq)
    (h : CallEvent.authorizerCall ar ∈ (signupHandler env world payload).2) :
    ∃ hid, ar = authRequestOf (normalizeSignupInput payload) hid := by
  by_cases hv : validateFields (normalizeSignupInput payload) = []
  · rcases hc : createReferringProvider env world.healthie (normalizeSignupInput payload)
      with ⟨r1, ev1⟩
    have hev1 : ev1 = if env.healthieAuth then
        [CallEvent.healthieCall (healthieRequestOf (normalizeSignupInput payload))] else [] := by
      have h2 := crp_events env world.healthie (normalizeSignupInput payload)
      rw [hc] at h2
      exact h2
    subst hev1
    have hmain : (signupHandler env world payload) =
        (match (r1, if env.healthieAuth then
            [CallEvent.healthieCall (healthieRequestOf (normalizeSignupInput payload))] else []) with
         | (Except.error e, ev1) => (handleApiError e, ev1)
         | (Except.ok healthie, ev1) =>
           match createAuthorizerUser env world.authorizer
               (normalizeSignupInput payload) healthie.id with
           | (Except.error e, ev2) => (handleApiError e, ev1 ++ ev2)
           | (Except.ok authorizer, ev2) =>
             (SignupResponse.success healthie authorizer, ev1 ++ ev2)) := by
      unfold signupHandler
      rw [if_neg (not_not_intro hv), hc]
    rw [hmain] at h
    cases r1 with
    | error e1 =>
      dsimp only at h
      by_cases hH : env.healthieAuth
      · rw [if_pos hH] at h
        simp at h
      · rw [if_neg hH] at h
        simp at h
    | ok hout =>
      rcases ha : createAuthorizerUser env world.authorizer
          (normalizeSignupInput payload) hout.id with ⟨r2, ev2⟩
      have hev2 : ev2 = if env.authorizerSecret then
          [CallEvent.authorizerCall (authRequestOf (normalizeSignupInput payload) hout.id)]
          else [] := by
        have h2 := cau_events env world.authorizer (normalizeSignupInput payload) hout.id
        rw [ha] at h2
        exact h2
      subst hev2
      dsimp only at h
      rw [ha] at h
      have hmem : CallEvent.authorizerCall ar ∈
          (if env.healthieAuth then
            [CallEvent.healthieCall (healthieRequestOf (normalizeSignupInput payload))] else [])
          ++ (if env.authorizerSecret then
            [CallEvent.authorizerCall (authRequestOf (normalizeSignupInput payload) hout.id)]
            else []) := by
        cases r2 <;> exact h
      rw [List.mem_append] at hmem
      rcases hmem with hm | hm
      · exfalso
        by_cases hH : env.healthieAuth
        · rw [if_pos hH] at hm
          simp at hm
        · rw [if_neg hH] at hm
          simp at hm
      · by_cases hA : env.authorizerSecret
        · rw [if_pos hA] at hm
          rw [List.mem_singleton] at hm
          injection hm with hm
          exact ⟨hout.id, hm⟩
        · rw [if_neg hA] at hm
          simp at hm
  · unfold signupHandler at h
    rw [if_pos hv] at h
    simp at h

/-- Claim C10: the password is exempt from normalization — a string
password survives `normalizeSignupInput` verbatim, a nonempty (even
whitespace-only) one passes the required-field check, and every Authorizer
request carries it untrimmed in `password`/`confirm_password`; a non-string
password becomes `""` and the request is rejected as missing. -/
theorem signup_password_verbatim (env : Env) (world : SignupWorld)
    (payload : SignupPayload) :
    (∀ s, payload.password = JsVal.vStr s →
      (normalizeSignupInput payload).password = s
      ∧ (s ≠ [] → SField.password ∉ validateFields (normalizeSignupInput payload))
      ∧ ∀ ar, CallEvent.authorizerCall ar ∈ (signupHandler env world payload).2 →
          ar.password = s ∧ ar.confirm_password = s)
    ∧ ((∀ s, payload.password ≠ JsVal.vStr s) →
      (normalizeSignupInput payload).password = []
      ∧ SField.password ∈ validateFields (normalizeSignupInput payload)
      ∧ ∃ fields, (signupHandler env world payload).1
          = SignupResponse.badRequest fields) := by
  constructor
  · intro s hs
    have hpw : (normalizeSignupInput payload).password = s := by
      simp [normalizeSignupInput, hs]
    refine ⟨hpw, ?_, ?_⟩
    · intro hne hmem
      rw [mem_validateFields] at hmem
      exact hne (hpw ▸ hmem)
    · intro ar hmem
      obtain ⟨hid, rfl⟩ := authorizer_event_shape env world payload ar hmem
      exact ⟨hpw, hpw⟩
  · intro hns
    have hpw : (normalizeSignupInput payload).password = [] := by
      cases hp : payload.password with
      | vStr s => exact absurd hp (hns s)
      | vNum q => simp [normalizeSignupInput, hp]
      | vBool b => simp [normalizeSignupInput, hp]
      | vNull => simp [normalizeSignupInput, hp]
      | vUndefined => simp [normalizeSignupInput, hp]
      | vArr l => simp [normalizeSignupInput, hp]
    have hmem : SField.password ∈ validateFields (normalizeSignupInput payload) :=
      (mem_validateFields _ _).2 hpw
    refine ⟨hpw, hmem, ?_⟩
    have hne : validateFields (normalizeSignupInput payload) ≠ [] :=
      List.ne_nil_of_mem hmem
    unfold signupHandler
    rw [if_pos hne]
    exact ⟨_, rfl⟩

/-- Witness for C10: a whitespace-only password survives verbatim and
passes validation; a numeric password is rejected as missing. -/
theorem signup_password_verbatim_witness :
    (normalizeSignupInput wpayWs).password = ("  ").data
    ∧ SField.password ∉ validateFields (normalizeSignupInput wpayWs)
    ∧ (normalizeSignupInput wpayNumPw).password = []
    ∧ SField.password ∈ validateFields (normalizeSignupInput wpayNumPw) := by
  have h1 := (signup_password_verbatim wenv wworldDup wpayWs).1 (("  ").data) rfl
  have h2 := (signup_password_verbatim wenv wworldDup wpayNumPw).2
    (by intro s hcontra; simp [wpayNumPw, wpay] at hcontra)
  exact ⟨h1.1, h1.2.1 (by decide), h2.1, h2.2.1⟩

lemma isiOf_range (v : JsVal) (q : JsRat) (h : isiOf v = some (some q)) :
    0 ≤ q.num ∧ q.num ≤ 28 * (q.den : Int) := by
  unfold isiOf at h
  by_cases hb : isiBlank v
  · rw [if_pos hb] at h
    exact absurd h (by simp)
  · rw [if_neg hb] at h
    cases hn : jsToNumber v with
    | nan => rw [hn] at h; exact absurd h (by simp)
    | fin q' =>
      rw [hn] at h
      dsimp only at h
      by_cases hc : q'.negB ∨ q'.gtNatB 28
      · rw [if_pos hc] at h
        exact absurd h (by simp)
      · rw [if_neg hc] at h
        push_neg at hc
        obtain ⟨hneg, hgt⟩ := hc
        have hq : q' = q := by
          simpa using h
        subst hq
        unfold JsRat.negB at hneg
        unfold JsRat.gtNatB at hgt
        constructor
        · simpa using hneg
        · simpa using hgt

lemma patientsPost_eval (b : IntakeBody) (nT mT : Str) (em : Option Str)
    (hpid : jsTruthy b.provider_id = true)
    (hname : requiredTrimmed b.name = Except.ok nT)
    (hdob : jsTruthy b.dateOfBirth = true)
    (hmob : requiredTrimmed b.mobile = Except.ok mT)
    (hem : emailOf b.email = some em) :
    patientsPost b =
      match isiOf b.isiScore with
      | none => IntakeResult.badRequest (("isiScore must be 0-28").data)
      | some isi => IntakeResult.created (insertedRow b nT mT em isi) none := by
  unfold patientsPost
  rw [if_neg (not_not_intro hpid), hname]
  dsimp only
  rw [if_neg (not_not_intro hdob), hmob]
  dsimp only
  cases hi : isiOf b.isiScore with
  | none => rfl
  | some isi =>
    dsimp only
    rw [hem]
    rfl

/-- Claim C4 (amended): every row inserted by a 201 `POST /api/patients`
has an `isi_score` that is null or a finite number in [0, 28] (not
necessarily an integer), and a `provider_id` equal to the stringified,
trimmed request `provider_id` — which came from a truthy value but may be
empty when that value was a whitespace-only string. -/
theorem intake_insert_invariants (b : IntakeBody) (row : PatientRow)
    (ep : Option Str)
    (h : patientsPost b = IntakeResult.created row ep) :
    (row.isi_score = none
      ∨ ∃ q, row.isi_score = some q ∧ 0 ≤ q.num ∧ q.num ≤ 28 * (q.den : Int))
    ∧ row.provider_id = trimStr (jsToString b.provider_id)
    ∧ jsTruthy b.provider_id = true := by
  unfold patientsPost at h
  by_cases h1 : jsTruthy b.provider_id
  · rw [if_neg (not_not_intro h1)] at h
    cases hn : requiredTrimmed b.name with
    | error bb =>
      rw [hn] at h
      cases bb <;> dsimp only at h <;> exact absurd h (by simp)
    | ok nT =>
      rw [hn] at h
      dsimp only at h
      by_cases h2 : jsTruthy b.dateOfBirth
      · rw [if_neg (not_not_intro h2)] at h
        cases hm : requiredTrimmed b.mobile with
        | error bb =>
          rw [hm] at h
          cases bb <;> dsimp only at h <;> exact absurd h (by simp)
        | ok mT =>
          rw [hm] at h
          dsimp only at h
          cases hi : isiOf b.isiScore with
          | none =>
            rw [hi] at h
            exact absurd h (by simp)
          | some isi =>
            rw [hi] at h
            dsimp only at h
            cases he : emailOf b.email with
            | none =>
              rw [he] at h
              exact absurd h (by simp)
            | some em =>
              rw [he] at h
              dsimp only at h
              rw [IntakeResult.created.injEq] at h
              obtain ⟨hrow, _⟩ := h
              subst hrow
              refine ⟨?_, rfl, h1⟩
              cases isi with
              | none => exact Or.inl rfl
              | some q => exact Or.inr ⟨q, rfl, isiOf_range b.isiScore q hi⟩
      · rw [if_pos h2] at h
        exact absurd h (by simp)
  · rw [if_pos h1] at h
    exact absurd h (by simp)

/-- Witness for C4 (amended) at a concrete valid body. -/
theorem intake_insert_invariants_witness :
    (patientsPost wib = IntakeResult.created
      (insertedRow wib (("Pat Doe").data) (("555-0101").data) none (some ⟨7, 1⟩)) none)
    ∧ ((insertedRow wib (("Pat Doe").data) (("555-0101").data) none
        (some ⟨7, 1⟩)).provider_id = ("p1").data)
    ∧ jsTruthy wib.provider_id = true := by
  have h := intake_insert_invariants wib
    (insertedRow wib (("Pat Doe").data) (("555-0101").data) none (some ⟨7, 1⟩)) none rfl
  exact ⟨rfl, rfl, h.2.2⟩

/-- C4 counterexample: a 201 insert whose `provider_id` is empty and whose
`isi_score` is the non-integral 5/2. -/
theorem intake_insert_invariants_counterexample :
    patientsPost cxC4Body = IntakeResult.created cxC4Row none
    ∧ cxC4Row.provider_id = []
    ∧ cxC4Row.isi_score = some ⟨5, 2⟩
    ∧ (5 : Int) % 2 = 1 := by
  exact ⟨rfl, rfl, rfl, rfl⟩

/-- Claim C5 (amended): with all other required fields present, an
`isiScore` of −1, 29, "abc", or any nonempty string whose JS numeric
coercion fails is rejected with 400; 0 and 28 are accepted with that score;
absent/null/"" are accepted as no score; and a whitespace-only string —
which JS coerces to 0 — is accepted with score 0 rather than rejected. -/
theorem isi_validation (b : IntakeBody) (nT mT : Str) (em : Option Str)
    (hpid : jsTruthy b.provider_id = true)
    (hname : requiredTrimmed b.name = Except.ok nT)
    (hdob : jsTruthy b.dateOfBirth = true)
    (hmob : requiredTrimmed b.mobile = Except.ok mT)
    (hem : emailOf b.email = some em) :
    patientsPost { b with isiScore := JsVal.vNum ⟨-1, 1⟩ }
      = IntakeResult.badRequest (("isiScore must be 0-28").data)
    ∧ patientsPost { b with isiScore := JsVal.vNum ⟨29, 1⟩ }
      = IntakeResult.badRequest (("isiScore must be 0-28").data)
    ∧ patientsPost { b with isiScore := JsVal.vStr (("abc").data) }
      = IntakeResult.badRequest (("isiScore must be 0-28").data)
    ∧ (∀ s, trimStr s ≠ [] → parseNumber s = JsNum.nan →
        patientsPost { b with isiScore := JsVal.vStr s }
          = IntakeResult.badRequest (("isiScore must be 0-28").data))
    ∧ patientsPost { b with isiScore := JsVal.vNum ⟨0, 1⟩ }
      = IntakeResult.created (insertedRow b nT mT em (some ⟨0, 1⟩)) none
    ∧ patientsPost { b with isiScore := JsVal.vNum ⟨28, 1⟩ }
      = IntakeResult.created (insertedRow b nT mT em (some ⟨28, 1⟩)) none
    ∧ patientsPost { b with isiScore := JsVal.vUndefined }
      = IntakeResult.created (insertedRow b nT mT em none) none
    ∧ patientsPost { b with isiScore := JsVal.vNull }
      = IntakeResult.created (insertedRow b nT mT em none) none
    ∧ patientsPost { b with isiScore := JsVal.vStr [] }
      = IntakeResult.created (insertedRow b nT mT em none) none
    ∧ ∀ s, s ≠ [] → trimStr s = [] →
        patientsPost { b with isiScore := JsVal.vStr s }
          = IntakeResult.created (insertedRow b nT mT em (some ⟨0, 1⟩)) none := by
  have heval : ∀ x : JsVal, patientsPost { b with isiScore := x } =
      match isiOf x with
      | none => IntakeResult.badRequest (("isiScore must be 0-28").data)
      | some isi => IntakeResult.created (insertedRow b nT mT em isi) none :=
    fun x => patientsPost_eval { b with isiScore := x } nT mT em hpid hname hdob hmob hem
  refine ⟨?_, ?_, ?_, ?_, ?_, ?_, ?_, ?_, ?_, ?_⟩
  · exact (heval _).trans rfl
  · exact (heval _).trans rfl
  · exact (heval _).trans rfl
  · intro s h1 h2
    have hsne : s ≠ [] := by
      intro hs
      exact h1 (by rw [hs]; rfl)
    have hblank : isiBlank (JsVal.vStr s) = false := by
      cases s with
      | nil => exact absurd rfl hsne
      | cons c cs => rfl
    have hisi : isiOf (JsVal.vStr s) = none := by
      unfold isiOf
      rw [if_neg (by simp [hblank])]
      have : jsToNumber (JsVal.vStr s) = parseNumber s := rfl
      rw [this, h2]
    rw [heval _, hisi]
  · exact (heval _).trans rfl
  · exact (heval _).trans rfl
  · exact (heval _).trans rfl
  · exact (heval _).trans rfl
  · exact (heval _).trans rfl
  · intro s hsne htrim
    have hblank : isiBlank (JsVal.vStr s) = false := by
      cases s with
      | nil => exact absurd rfl hsne
      | cons c cs => rfl
    have hisi : isiOf (JsVal.vStr s) = some (some ⟨0, 1⟩) := by
      unfold isiOf
      rw [if_neg (by simp [hblank])]
      have h3 : jsToNumber (JsVal.vStr s) = parseNumber s := rfl
      have h4 : parseNumber s = JsNum.fin ⟨0, 1⟩ := by
        unfold parseNumber
        rw [htrim]
        rfl
      rw [h3, h4]
      rfl
    rw [heval _, hisi]

/-- Witness for C5 (amended): 0 accepted, "abc" rejected. -/
theorem isi_validation_witness :
    patientsPost { wib with isiScore := JsVal.vNum ⟨0, 1⟩ }
      = IntakeResult.created
        (insertedRow wib (("Pat Doe").data) (("555-0101").data) none (some ⟨0, 1⟩)) none
    ∧ patientsPost { wib with isiScore := JsVal.vStr (("abc").data) }
      = IntakeResult.badRequest (("isiScore must be 0-28").data) := by
  have h := isi_validation wib (("Pat Doe").data) (("555-0101").data) none
    rfl rfl rfl rfl rfl
  exact ⟨h.2.2.2.2.1, h.2.2.1⟩

/-- C5 counterexample: the non-numeric, nonempty string `" "` as `isiScore`
is not rejected with 400 — `Number(" ")` is `0`, so the row is inserted with
score 0. -/
theorem isi_validation_counterexample :
    ((" ").data : Str) ≠ []
    ∧ parseNumber ((" ").data) = JsNum.fin ⟨0, 1⟩
    ∧ patientsPost cxC5Body = IntakeResult.created cxC5Row none
    ∧ cxC5Row.isi_score = some ⟨0, 1⟩ := by
  exact ⟨by decide, rfl, rfl, rfl⟩

lemma findHealthieProviderId_eq_specFirstMatchWithId (wanted : Str)
    (accounts : List AppDataVal) :
    findHealthieProviderId wanted accounts = specFirstMatchWithId wanted accounts := by
  induction accounts with
  | nil => rfl
  | cons c rest ih =>
    unfold findHealthieProviderId specFirstMatchWithId
    by_cases hm : storedPracticeName c ≠ [] ∧ storedPracticeName c = wanted
    · rw [if_pos hm]
      cases he : extractHealthieProviderId (appDataOf c) with
      | some hid =>
        rw [if_pos ⟨hm.1, hm.2, rfl⟩]
      | none =>
        rw [if_neg (fun hcon => by simpa using hcon.2.2)]
        exact ih
    · rw [if_neg hm, if_neg (fun hcon => hm ⟨hcon.1, hcon.2.1⟩)]
      exact ih

lemma publicPost_eval (accounts : List AppDataVal) (b : PublicBody) (nT mT : Str)
    (em : Option Str) (isi : Option JsRat)
    (hpn : jsTruthy b.practiceName = true)
    (hpt : trimStr (jsToString b.practiceName) ≠ [])
    (hname : requiredTrimmed b.name = Except.ok nT)
    (hdob : jsTruthy b.dateOfBirth = true)
    (hmob : requiredTrimmed b.mobile = Except.ok mT)
    (hisi : isiOf b.isiScore = some isi)
    (hem : emailOf b.email = some em) :
    publicPost accounts b =
      match findHealthieProviderId (normalizePracticeName b.practiceName) accounts with
      | none => IntakeResult.notFound
          (("Practice not found (no healthie_provider_id stored for that practice).").data)
      | some hid =>
        IntakeResult.created
          { provider_id := hid
            full_name := nT
            date_of_birth := b.dateOfBirth
            mobile := mT
            email := em
            isi_score := isi
            flags := treatmentsToFlags b.suggestedTreatments }
          (some (trimStr (jsToString b.practiceName))) := by
  unfold publicPost
  rw [if_neg (by push_neg; exact ⟨by simp [hpn], hpt⟩)]
  unfold publicCore
  rw [hname]
  dsimp only
  rw [if_neg (not_not_intro hdob), hmob]
  dsimp only
  cases hf : findHealthieProviderId (normalizePracticeName b.practiceName) accounts with
  | none => rfl
  | some hid =>
    dsimp only
    rw [hisi]
    dsimp only
    rw [hem]

/-- Claim C3 (amended): practice-name resolution scans stored accounts in
order and the first account whose nonempty normalized stored name equals the
normalized requested name *and* which yields an extractable provider id
wins; name-matching accounts without an id are skipped.  If no account
matches with an id the response is 404; on a match the patient row is
created under the resolved id. -/
theorem practice_resolution (accounts : List AppDataVal) (b : PublicBody)
    (nT mT : Str) (em : Option Str) (isi : Option JsRat)
    (hpn : jsTruthy b.practiceName = true)
    (hpt : trimStr (jsToString b.practiceName) ≠ [])
    (hname : requiredTrimmed b.name = Except.ok nT)
    (hdob : jsTruthy b.dateOfBirth = true)
    (hmob : requiredTrimmed b.mobile = Except.ok mT)
    (hisi : isiOf b.isiScore = some isi)
    (hem : emailOf b.email = some em) :
    findHealthieProviderId (normalizePracticeName b.practiceName) accounts
      = specFirstMatchWithId (normalizePracticeName b.practiceName) accounts
    ∧ (findHealthieProviderId (normalizePracticeName b.practiceName) accounts = none →
        publicPost accounts b = IntakeResult.notFound
          (("Practice not found (no healthie_provider_id stored for that practice).").data))
    ∧ ∀ hid, findHealthieProviderId (normalizePracticeName b.practiceName) accounts
          = some hid →
        publicPost accounts b = IntakeResult.created
          { provider_id := hid
            full_name := nT
            date_of_birth := b.dateOfBirth
            mobile := mT
            email := em
            isi_score := isi
            flags := treatmentsToFlags b.suggestedTreatments }
          (some (trimStr (jsToString b.practiceName))) := by
  refine ⟨findHealthieProviderId_eq_specFirstMatchWithId _ _, ?_, ?_⟩
  · intro hnone
    rw [publicPost_eval accounts b nT mT em isi hpn hpt hname hdob hmob hisi hem, hnone]
  · intro hid hsome
    rw [publicPost_eval accounts b nT mT em isi hpn hpt hname hdob hmob hisi hem, hsome]

/-- C3 counterexample: the first name-matching account has no embedded id,
so the claim predicts 404; the code skips it and answers 201 with the id of
the later match. -/
theorem practice_resolution_counterexample :
    storedPracticeName cxAcctNoId = normalizePracticeName cxPubBody.practiceName
    ∧ extractHealthieProviderId (appDataOf cxAcctNoId) = none
    ∧ specFirstMatchResolve (normalizePracticeName cxPubBody.practiceName) cxAccounts = none
    ∧ publicPost cxAccounts cxPubBody
        = IntakeResult.created cxPubRow (some (("Clinic A").data))
    ∧ cxPubRow.provider_id = ("77").data :=
  ⟨rfl, rfl, rfl, rfl, rfl⟩

/-- Witness for C3 (amended): the id-less match is skipped and the row is
filed under 77. -/
theorem practice_resolution_witness :
    publicPost cxAccounts cxPubBody
      = IntakeResult.created cxPubRow (some (("Clinic A").data)) := by
  have h := practice_resolution cxAccounts cxPubBody (("Pat Doe").data) (("555").data)
    none none rfl (by decide) rfl rfl rfl rfl rfl
  exact (h.2.2 (("77").data) rfl).trans rfl

lemma intakeOutcome_publicCore_echo (accounts : List AppDataVal) (b : PublicBody)
    (wanted e1 e2 : Str) :
    intakeOutcome (publicCore accounts b wanted e1)
      = intakeOutcome (publicCore accounts b wanted e2) := by
  unfold publicCore
  repeat' split
  all_goals rfl

lemma normalizePracticeName_vStr (a : Str) :
    normalizePracticeName (JsVal.vStr a) = toLowerStr (trimStr a) := by
  unfold normalizePracticeName jsOr
  by_cases ha : jsTruthy (JsVal.vStr a)
  · rw [if_pos ha]
    rfl
  · rw [if_neg ha]
    have hnil : a = [] := by
      by_contra hne
      exact ha (by simp [jsTruthy, List.isEmpty_iff, hne])
    subst hnil
    rfl

lemma toLowerStr_eq_nil (s : Str) : toLowerStr s = [] ↔ s = [] := by
  unfold toLowerStr
  exact List.map_eq_nil_iff

/-- Claim C6: two caller-supplied practice names that are equal after
trimming and lowercasing produce the same outcome (status and resolved
provider id) over the same stored account set. -/
theorem practice_name_insensitive (accounts : List AppDataVal) (b : PublicBody)
    (a1 a2 : Str)
    (h : toLowerStr (trimStr a1) = toLowerStr (trimStr a2)) :
    intakeOutcome (publicPost accounts { b with practiceName := JsVal.vStr a1 })
      = intakeOutcome (publicPost accounts { b with practiceName := JsVal.vStr a2 }) := by
  by_cases h1 : trimStr a1 = []
  · have h2 : trimStr a2 = [] := by
      rw [← toLowerStr_eq_nil]
      rw [← h]
      rw [toLowerStr_eq_nil]
      exact h1
    unfold publicPost
    rw [if_pos (Or.inr (show trimStr (jsToString (JsVal.vStr a1)) = [] from h1)),
      if_pos (Or.inr (show trimStr (jsToString (JsVal.vStr a2)) = [] from h2))]
  · have h2 : trimStr a2 ≠ [] := by
      intro hh
      apply h1
      rw [← toLowerStr_eq_nil, h, toLowerStr_eq_nil]
      exact hh
    have ha1 : a1 ≠ [] := fun hh => h1 (by rw [hh]; rfl)
    have ha2 : a2 ≠ [] := fun hh => h2 (by rw [hh]; rfl)
    unfold publicPost
    rw [if_neg (by
      push_neg
      exact ⟨by simp [jsTruthy, List.isEmpty_iff, ha1], h1⟩)]
    rw [if_neg (by
      push_neg
      exact ⟨by simp [jsTruthy, List.isEmpty_iff, ha2], h2⟩)]
    dsimp only
    rw [normalizePracticeName_vStr, normalizePracticeName_vStr, h]
    have hcore : ∀ (w e : Str),
        publicCore accounts { b with practiceName := JsVal.vStr a1 } w e
          = publicCore accounts { b with practiceName := JsVal.vStr a2 } w e :=
      fun w e => rfl
    rw [hcore]
    exact intakeOutcome_publicCore_echo accounts _ _ _ _

/-- Witness for C6 on "Autonoos LLC " versus "autonoos llc". -/
theorem practice_name_insensitive_witness :
    intakeOutcome (publicPost cxAccounts
        { cxPubBody with practiceName := JsVal.vStr (("Autonoos LLC ").data) })
      = intakeOutcome (publicPost cxAccounts
        { cxPubBody with practiceName := JsVal.vStr (("autonoos llc").data) }) := by
  exact practice_name_insensitive cxAccounts cxPubBody
    (("Autonoos LLC ").data) (("autonoos llc").data) (by decide)

lemma insertDescById_perm (r : DbPatient) (l : List DbPatient) :
    (insertDescById r l).Perm (r :: l) := by
  induction l with
  | nil => exact List.Perm.refl _
  | cons x xs ih =>
    unfold insertDescById
    by_cases h : x.id ≤ r.id
    · rw [if_pos h]
    · rw [if_neg h]
      exact (ih.cons x).trans (List.Perm.swap r x xs)

lemma sortDescById_perm (l : List DbPatient) : (sortDescById l).Perm l := by
  induction l with
  | nil => exact List.Perm.refl _
  | cons x xs ih =>
    unfold sortDescById
    exact (insertDescById_perm x (sortDescById xs)).trans (ih.cons x)

lemma insertDescById_sorted (r : DbPatient) (l : List DbPatient)
    (h : l.Pairwise (fun a b => b.id ≤ a.id)) :
    (insertDescById r l).Pairwise (fun a b => b.id ≤ a.id) := by
  induction l with
  | nil => simp [insertDescById]
  | cons x xs ih =>
    rw [List.pairwise_cons] at h
    obtain ⟨hx, hxs⟩ := h
    unfold insertDescById
    by_cases hle : x.id ≤ r.id
    · rw [if_pos hle]
      rw [List.pairwise_cons]
      refine ⟨?_, List.pairwise_cons.2 ⟨hx, hxs⟩⟩
      intro b hb
      rcases List.mem_cons.1 hb with rfl | hb
      · exact hle
      · exact le_trans (hx b hb) hle
    · rw [if_neg hle]
      rw [List.pairwise_cons]
      refine ⟨?_, ih hxs⟩
      intro b hb
      have hb2 : b ∈ r :: xs := (insertDescById_perm r xs).mem_iff.1 hb
      rcases List.mem_cons.1 hb2 with rfl | hb2
      · exact le_of_not_le hle
      · exact hx b hb2

lemma sortDescById_sorted (l : List DbPatient) :
    (sortDescById l).Pairwise (fun a b => b.id ≤ a.id) := by
  induction l with
  | nil => simp [sortDescById]
  | cons x xs ih =>
    unfold sortDescById
    exact insertDescById_sorted x (sortDescById xs) ih

/-- Claim C9: when the bearer token resolves to a provider id, the 200
response of `GET /api/patients` returns exactly the stored rows with that
`provider_id` (a permutation of the filter), ordered by descending row id,
together with that provider id; rows of other providers never appear. -/
theorem get_patients_exact (db : List DbPatient) (pf : FetchOutcome ProfileBody)
    (authorization : Option Str) (tok : Str) (profile : ProfileObj) (pid : Str)
    (h1 : getBearerToken authorization = some tok)
    (h2 : profileOf pf = some profile)
    (h3 : extractHealthieProviderId (parseAppData profile.app_data) = some pid) :
    getPatients db pf authorization
      = GetPatientsResult.okPatients (selectPatientsByProvider db pid) pid
    ∧ (selectPatientsByProvider db pid).Perm
        (db.filter (fun r => r.provider_id == pid))
    ∧ (selectPatientsByProvider db pid).Pairwise (fun a b => b.id ≤ a.id)
    ∧ (∀ r ∈ selectPatientsByProvider db pid, r.provider_id = pid)
    ∧ ∀ r ∈ db, r.provider_id = pid → r ∈ selectPatientsByProvider db pid := by
  refine ⟨?_, sortDescById_perm _, sortDescById_sorted _, ?_, ?_⟩
  · unfold getPatients
    rw [h1]
    dsimp only
    rw [h2]
    dsimp only
    rw [h3]
  · intro r hr
    have hf : r ∈ db.filter (fun r => r.provider_id == pid) :=
      (sortDescById_perm _).mem_iff.1 hr
    have := (List.mem_filter.1 hf).2
    exact beq_iff_eq.1 (by simpa using this)
  · intro r hr hpid
    apply (sortDescById_perm _).mem_iff.2
    exact List.mem_filter.2 ⟨hr, by simpa using beq_iff_eq.2 hpid⟩

/-- Witness for C9 on a concrete store and profile. -/
theorem get_patients_exact_witness :
    getPatients wdb wprof (some (("Bearer tok1").data))
      = GetPatientsResult.okPatients
        [⟨3, ("77").data, ("C").data⟩, ⟨1, ("77").data, ("A").data⟩] (("77").data) := by
  have h := get_patients_exact wdb wprof (some (("Bearer tok1").data))
    (("tok1").data) ⟨AppDataVal.strCell
      (some { AppData.empty with healthie_id := JsVal.vNum ⟨77, 1⟩ })⟩ (("77").data)
    (by decide) rfl (by decide)
  exact h.1.trans (by decide)
